import Mathlib

/-!
Verification of the multi-agent MCQ review pipeline (agents.js / server.js).

The code is embedded shallowly: every LLM interaction is abstracted into an
environment that supplies, per (provider, tier) pair, either the raw response
text or a failure, together with a decoding function modelling the JSON parse
and field typing for that agent.  Agents return their parsed record, the log
lines they append, and the ordered list of (provider, tier) call attempts they
made.  JavaScript string truthiness (empty string is falsy, `undefined` is
falsy) is modelled explicitly.
-/

-- ── Providers and tiers (the MODELS roster keys) ─────────────────────────────

inductive Provider where
  | groq
  | openrouter
deriving DecidableEq, Repr

inductive Tier where
  | fast
  | smart
  | reason
deriving DecidableEq, Repr

-- ── Question record (as produced by normalizeRow in server.js) ───────────────

structure Question where
  code             : String
  chapter          : String
  unit             : String
  question         : String
  optionA          : String
  optionB          : String
  optionC          : String
  optionD          : String
  rightOption      : String
  feedback         : String
  aiAnswer         : String
  finalAnswer      : String
  finalExplanation : String
  difficulty       : String
  category         : String
  queries          : String
deriving DecidableEq, Repr

/-- JavaScript `a || b` on strings: the empty string is falsy. -/
def jsOr (a b : String) : String := if a = "" then b else a

-- ── Parsed agent records (the JSON shapes each agent consumes downstream) ────

structure Plan where
  agents           : List String
  reasoning        : String
  hasAnswerConflict : Bool
  isNumerical      : Bool
deriving DecidableEq, Repr

structure VerifierResult where
  correctAnswer    : String
  confidence       : String
  reasoning        : Option String
  verdict          : String
  needsHumanReview : Bool
  humanReviewReason : String
deriving DecidableEq, Repr

structure ConflictResult where
  resolution             : String
  finalRecommendedAnswer : String
  conflictType           : String
  explanation            : Option String
  escalateToHuman        : Bool
  escalationReason       : String
deriving DecidableEq, Repr

structure DifficultyResult where
  difficulty           : String
  reasoning            : String
  currentRatingCorrect : Bool
  suggestedChange      : String
deriving DecidableEq, Repr

structure UnitResult where
  belongsInUnit       : Bool
  confidence          : String
  reasoning           : String
  suggestedUnit       : String
  questionType        : String
  yearDependentReason : Option String
deriving DecidableEq, Repr

structure ExplanationResult where
  quality               : String
  score                 : Nat
  strengths             : Option String
  missingElements       : List String
  improvementSuggestion : String
  needsCalculation      : Bool
  calculationNote       : Option String
deriving DecidableEq, Repr

structure MemoryResult where
  memoryTrick       : String
  type              : String
  keyConceptSummary : String
deriving DecidableEq, Repr

structure CalcResult where
  requiresCalculation : Bool
  calculationSteps    : String
  thresholdsInvolved  : List String
  formulaUsed         : String
deriving DecidableEq, Repr

-- ── Environments: outcomes of callLLM and of parseJSON + typing ──────────────

/-- The environment one agent runs against: `call p t` is the outcome of
`callLLM` at (provider, tier) — raw text on success, an error message on a
config or transport failure — and `decode` is the combined outcome of
`parseJSON` plus field typing on a given raw text. -/
structure AgentEnv (α : Type) where
  call   : Provider → Tier → Except String String
  decode : String → Except String α

/-- What one agent run produces: its (possibly degraded-default) record, the
log lines it appended, and the ordered list of `callLLM` attempts it made. -/
structure AgentOut (α : Type) where
  result   : α
  log      : List String
  attempts : List (Provider × Tier)
deriving DecidableEq

/-- The numeric-keyword test `/\$|million|thousand|percent|%/.test(s)` used by
the orchestrator fallback plan: does the string contain a match of any of the
five literal alternatives? -/
def hasSub (p : List Char) : List Char → Bool
  | [] => decide (p = [])
  | c :: cs => (p.isPrefixOf (c :: cs) : Bool) || hasSub p cs

def jsNumericTest (s : String) : Bool :=
  hasSub ['$'] s.data || hasSub "million".data s.data || hasSub "thousand".data s.data
    || hasSub "percent".data s.data || hasSub ['%'] s.data

-- ── Agent 1: Orchestrator ────────────────────────────────────────────────────

/-- The fixed default plan substituted when the planning call or parse fails. -/
def defaultPlan (q : Question) : Plan :=
  { agents := ["answer_verifier", "difficulty_rater", "unit_checker",
               "explanation_critic", "memory_trick_generator"]
    reasoning := "Default full review"
    hasAnswerConflict := q.rightOption != q.aiAnswer
    isNumerical := jsNumericTest q.question }

def orchestrate (env : AgentEnv Plan) (q : Question) : AgentOut Plan :=
  let l0 := "🎯 Orchestrator: Analyzing question " ++ q.code ++ "..."
  match env.call .groq .fast with
  | .ok raw =>
    match env.decode raw with
    | .ok plan =>
      { result := plan
        log := [l0, "🎯 Orchestrator plan: [" ++ String.intercalate ", " plan.agents
                      ++ "] — " ++ plan.reasoning]
        attempts := [(.groq, .fast)] }
    | .error e =>
      { result := defaultPlan q
        log := [l0, "⚠ Orchestrator fallback to default plan: " ++ e]
        attempts := [(.groq, .fast)] }
  | .error e =>
    { result := defaultPlan q
      log := [l0, "⚠ Orchestrator fallback to default plan: " ++ e]
      attempts := [(.groq, .fast)] }

-- ── Agent 2: Answer Verifier (reason → smart → OpenRouter fallback chain) ────

def verifierDefault (msg : String) : VerifierResult :=
  { correctAnswer := "?", confidence := "low", reasoning := none,
    verdict := "uncertain", needsHumanReview := true,
    humanReviewReason := "Agent failed: " ++ msg }

def avSuccessLine (r : VerifierResult) : String :=
  "✅ Answer Verifier: " ++ r.correctAnswer ++ " (" ++ r.confidence
    ++ " confidence) — " ++ r.verdict

/-- The outer catch of `answerVerifier`: one retry on OpenRouter smart, then
the degraded default. `prev` is the list of attempts already made. -/
def avOpenrouterFallback (env : AgentEnv VerifierResult)
    (prev : List (Provider × Tier)) (l0 : String) : AgentOut VerifierResult :=
  match env.call .openrouter .smart with
  | .ok raw =>
    match env.decode raw with
    | .ok r =>
      { result := r
        log := [l0, "✅ Answer Verifier (OpenRouter fallback): " ++ r.correctAnswer]
        attempts := prev ++ [(.openrouter, .smart)] }
    | .error e2 =>
      { result := verifierDefault e2
        log := [l0, "⚠ Answer Verifier failed: " ++ e2]
        attempts := prev ++ [(.openrouter, .smart)] }
  | .error e2 =>
    { result := verifierDefault e2
      log := [l0, "⚠ Answer Verifier failed: " ++ e2]
      attempts := prev ++ [(.openrouter, .smart)] }

def answerVerifier (env : AgentEnv VerifierResult) (q : Question) :
    AgentOut VerifierResult :=
  let l0 := "✅ Answer Verifier: Checking correct answer..."
  match env.call .groq .reason with
  | .ok raw1 =>
    match env.decode raw1 with
    | .ok r =>
      { result := r, log := [l0, avSuccessLine r], attempts := [(.groq, .reason)] }
    | .error _ => avOpenrouterFallback env [(.groq, .reason)] l0
  | .error _ =>
    match env.call .groq .smart with
    | .ok raw2 =>
      match env.decode raw2 with
      | .ok r =>
        { result := r, log := [l0, avSuccessLine r]
          attempts := [(.groq, .reason), (.groq, .smart)] }
      | .error _ => avOpenrouterFallback env [(.groq, .reason), (.groq, .smart)] l0
    | .error _ => avOpenrouterFallback env [(.groq, .reason), (.groq, .smart)] l0

-- ── Agent 3: Conflict Analyzer ───────────────────────────────────────────────

def conflictDefault (msg : String) : ConflictResult :=
  { resolution := "genuinely_ambiguous", finalRecommendedAnswer := "?",
    conflictType := "unclear", explanation := none,
    escalateToHuman := true, escalationReason := msg }

def conflictAnalyzer (env : AgentEnv ConflictResult) (q : Question)
    (answerResult : VerifierResult) : AgentOut ConflictResult :=
  let l0 := "⚡ Conflict Analyzer: Investigating answer discrepancy..."
  match env.call .groq .smart with
  | .ok raw =>
    match env.decode raw with
    | .ok r =>
      { result := r
        log := [l0, "⚡ Conflict Analyzer: " ++ r.resolution ++ " — " ++ r.conflictType]
        attempts := [(.groq, .smart)] }
    | .error e =>
      { result := conflictDefault e
        log := [l0, "⚠ Conflict Analyzer failed: " ++ e]
        attempts := [(.groq, .smart)] }
  | .error e =>
    { result := conflictDefault e
      log := [l0, "⚠ Conflict Analyzer failed: " ++ e]
      attempts := [(.groq, .smart)] }

-- ── Agent 4: Difficulty Rater ────────────────────────────────────────────────

def difficultyDefault (q : Question) : DifficultyResult :=
  { difficulty := jsOr q.difficulty "Medium", reasoning := "Agent failed",
    currentRatingCorrect := true, suggestedChange := "keep" }

def difficultyRater (env : AgentEnv DifficultyResult) (q : Question) :
    AgentOut DifficultyResult :=
  let l0 := "📊 Difficulty Rater: Assessing difficulty level..."
  match env.call .groq .fast with
  | .ok raw =>
    match env.decode raw with
    | .ok r =>
      { result := r
        log := [l0, "📊 Difficulty Rater: " ++ r.difficulty ++ " (" ++ r.suggestedChange ++ ")"]
        attempts := [(.groq, .fast)] }
    | .error e =>
      { result := difficultyDefault q
        log := [l0, "⚠ Difficulty Rater failed: " ++ e]
        attempts := [(.groq, .fast)] }
  | .error e =>
    { result := difficultyDefault q
      log := [l0, "⚠ Difficulty Rater failed: " ++ e]
      attempts := [(.groq, .fast)] }

-- ── Agent 5: Unit Checker ────────────────────────────────────────────────────

def unitDefault (q : Question) : UnitResult :=
  { belongsInUnit := true, confidence := "low", reasoning := "Agent failed",
    suggestedUnit := q.unit, questionType := "Static Question",
    yearDependentReason := none }

def ucSuccessLine (r : UnitResult) : String :=
  if r.belongsInUnit then "📂 Unit Checker: ✓ correct unit"
  else "📂 Unit Checker: ✗ wrong unit → " ++ r.suggestedUnit

def unitChecker (env : AgentEnv UnitResult) (q : Question) : AgentOut UnitResult :=
  let l0 := "📂 Unit Checker: Verifying unit placement..."
  match env.call .groq .fast with
  | .ok raw =>
    match env.decode raw with
    | .ok r =>
      { result := r, log := [l0, ucSuccessLine r], attempts := [(.groq, .fast)] }
    | .error e =>
      { result := unitDefault q
        log := [l0, "⚠ Unit Checker failed: " ++ e]
        attempts := [(.groq, .fast)] }
  | .error e =>
    { result := unitDefault q
      log := [l0, "⚠ Unit Checker failed: " ++ e]
      attempts := [(.groq, .fast)] }

-- ── Agent 6: Explanation Critic (short-circuits when no explanation) ─────────

def explanationMissing : ExplanationResult :=
  { quality := "Missing", score := 0, strengths := none,
    missingElements := ["Full explanation needed"],
    improvementSuggestion := "No explanation exists — needs to be written from scratch",
    needsCalculation := false, calculationNote := none }

def explanationFailedDefault : ExplanationResult :=
  { quality := "Unknown", score := 5, strengths := none, missingElements := [],
    improvementSuggestion := "Agent failed — manual review needed",
    needsCalculation := false, calculationNote := none }

def explanationCritic (env : AgentEnv ExplanationResult) (q : Question) :
    AgentOut ExplanationResult :=
  let l0 := "📝 Explanation Critic: Reviewing explanation quality..."
  let explanation := jsOr q.finalExplanation (jsOr q.feedback "")
  if explanation = "" then
    { result := explanationMissing
      log := [l0, "📝 Explanation Critic: No explanation found — flagging for creation"]
      attempts := [] }
  else
    match env.call .groq .smart with
    | .ok raw =>
      match env.decode raw with
      | .ok r =>
        { result := r
          log := [l0, "📝 Explanation Critic: " ++ r.quality ++ " (" ++ toString r.score ++ "/10)"]
          attempts := [(.groq, .smart)] }
      | .error e =>
        { result := explanationFailedDefault
          log := [l0, "⚠ Explanation Critic failed: " ++ e]
          attempts := [(.groq, .smart)] }
    | .error e =>
      { result := explanationFailedDefault
        log := [l0, "⚠ Explanation Critic failed: " ++ e]
        attempts := [(.groq, .smart)] }

-- ── Agent 7: Memory Trick Generator ──────────────────────────────────────────

def memoryDefault : MemoryResult :=
  { memoryTrick := "", type := "none", keyConceptSummary := "" }

def memoryTrickGenerator (env : AgentEnv MemoryResult) (q : Question) :
    AgentOut MemoryResult :=
  let l0 := "💡 Memory Trick Generator: Creating mnemonic..."
  match env.call .groq .fast with
  | .ok raw =>
    match env.decode raw with
    | .ok r =>
      { result := r
        log := [l0, "💡 Memory Trick: [" ++ r.type ++ "] " ++ r.memoryTrick]
        attempts := [(.groq, .fast)] }
    | .error e =>
      { result := memoryDefault
        log := [l0, "⚠ Memory Trick Generator failed: " ++ e]
        attempts := [(.groq, .fast)] }
  | .error e =>
    { result := memoryDefault
      log := [l0, "⚠ Memory Trick Generator failed: " ++ e]
      attempts := [(.groq, .fast)] }

-- ── Agent 8: Calculation Checker ─────────────────────────────────────────────

def calcDefault : CalcResult :=
  { requiresCalculation := false, calculationSteps := "",
    thresholdsInvolved := [], formulaUsed := "" }

def calcSuccessLine (r : CalcResult) : String :=
  if r.requiresCalculation then "🔢 Calculation Checker: Calculation needed"
  else "🔢 Calculation Checker: No calculation needed"

def calculationChecker (env : AgentEnv CalcResult) (q : Question) : AgentOut CalcResult :=
  let l0 := "🔢 Calculation Checker: Checking if calculation steps needed..."
  match env.call .groq .fast with
  | .ok raw =>
    match env.decode raw with
    | .ok r =>
      { result := r, log := [l0, calcSuccessLine r], attempts := [(.groq, .fast)] }
    | .error e =>
      { result := calcDefault
        log := [l0, "⚠ Calculation Checker failed: " ++ e]
        attempts := [(.groq, .fast)] }
  | .error e =>
    { result := calcDefault
      log := [l0, "⚠ Calculation Checker failed: " ++ e]
      attempts := [(.groq, .fast)] }

-- ── The review environment and the Pipeline Coordinator (reviewQuestion) ─────

/-- Everything one `reviewQuestion` run depends on: one `AgentEnv` per agent,
the measured elapsed-time string, and an optional unrecoverable system error
thrown at the coordination level (outside every agent's own catch). -/
structure ReviewEnv where
  sysError : Option String
  elapsed  : String
  orch     : AgentEnv Plan
  av       : AgentEnv VerifierResult
  conflict : AgentEnv ConflictResult
  diff     : AgentEnv DifficultyResult
  unit     : AgentEnv UnitResult
  expl     : AgentEnv ExplanationResult
  mem      : AgentEnv MemoryResult
  calcE    : AgentEnv CalcResult

/-- Project a field out of an optionally-run agent, JS `o?.f` where a missing
agent yields a falsy `undefined` booleanised to `false`. -/
def optB {α : Type} (o : Option (AgentOut α)) (f : α → Bool) : Bool :=
  match o with
  | some x => f x.result
  | none => false

/-- JS `o?.f` in a string position where the fallthrough is the empty string. -/
def optS {α : Type} (o : Option (AgentOut α)) (f : α → String) : String :=
  match o with
  | some x => f x.result
  | none => ""

/-- JS `o?.f` interpolated directly into a template string: a missing agent
prints the literal text `undefined`. -/
def optSU {α : Type} (o : Option (AgentOut α)) (f : α → String) : String :=
  match o with
  | some x => f x.result
  | none => "undefined"

/-- Render an optional string field inside a template literal: a missing field
prints `undefined`. -/
def jsRender (o : Option String) : String :=
  match o with
  | some s => s
  | none => "undefined"

def planOutOf (env : ReviewEnv) (q : Question) : AgentOut Plan :=
  orchestrate env.orch q

def planOf (env : ReviewEnv) (q : Question) : Plan :=
  (planOutOf env q).result

def avOutOf (env : ReviewEnv) (q : Question) : Option (AgentOut VerifierResult) :=
  if (planOf env q).agents.contains "answer_verifier" then
    some (answerVerifier env.av q)
  else none

def drOutOf (env : ReviewEnv) (q : Question) : Option (AgentOut DifficultyResult) :=
  if (planOf env q).agents.contains "difficulty_rater" then
    some (difficultyRater env.diff q)
  else none

def ucOutOf (env : ReviewEnv) (q : Question) : Option (AgentOut UnitResult) :=
  if (planOf env q).agents.contains "unit_checker" then
    some (unitChecker env.unit q)
  else none

/-- `hasConflict` in step 3 of `reviewQuestion`. -/
def hasConflictOf (env : ReviewEnv) (q : Question) : Bool :=
  (q.rightOption != q.aiAnswer) || (q.rightOption != q.finalAnswer)
    || optB (avOutOf env q) (fun r => r.verdict == "uncertain")

/-- The conflict-analyzer gate: `(agentSet.has('conflict_analyzer') || hasConflict)
&& answerResult`. -/
def conflictOutOf (env : ReviewEnv) (q : Question) : Option (AgentOut ConflictResult) :=
  match avOutOf env q with
  | some avO =>
    if (planOf env q).agents.contains "conflict_analyzer" || hasConflictOf env q then
      some (conflictAnalyzer env.conflict q avO.result)
    else none
  | none => none

def explOutOf (env : ReviewEnv) (q : Question) : Option (AgentOut ExplanationResult) :=
  if (planOf env q).agents.contains "explanation_critic" then
    some (explanationCritic env.expl q)
  else none

def memOutOf (env : ReviewEnv) (q : Question) : Option (AgentOut MemoryResult) :=
  if (planOf env q).agents.contains "memory_trick_generator" then
    some (memoryTrickGenerator env.mem q)
  else none

/-- The calculation-checker gate: `agentSet.has('calculation_checker') ||
plan.isNumerical`. -/
def calcOutOf (env : ReviewEnv) (q : Question) : Option (AgentOut CalcResult) :=
  if (planOf env q).agents.contains "calculation_checker" || (planOf env q).isNumerical then
    some (calculationChecker env.calcE q)
  else none

/-- Step 4 synthesis: `conflictResult?.finalRecommendedAnswer ||
answerResult?.correctAnswer || question.finalAnswer || question.rightOption`. -/
def finalAnswerOf (env : ReviewEnv) (q : Question) : String :=
  jsOr (optS (conflictOutOf env q) (fun r => r.finalRecommendedAnswer))
    (jsOr (optS (avOutOf env q) (fun r => r.correctAnswer))
      (jsOr q.finalAnswer q.rightOption))

def needsHumanOf (env : ReviewEnv) (q : Question) : Bool :=
  optB (avOutOf env q) (fun r => r.needsHumanReview)
    || optB (conflictOutOf env q) (fun r => r.escalateToHuman)
    || optB (avOutOf env q) (fun r => r.confidence == "low")
    || optB (avOutOf env q) (fun r => r.verdict == "uncertain")

/-- The queries-summary parts, assembled in the fixed source order. -/
def queryPartsOf (env : ReviewEnv) (q : Question) : List String :=
  let parts :=
    (if needsHumanOf env q then
      ["⚠ HUMAN REVIEW NEEDED: "
        ++ jsOr (optS (avOutOf env q) (fun r => r.humanReviewReason))
            (jsOr (optS (conflictOutOf env q) (fun r => r.escalationReason))
              "Uncertain answer")]
     else [])
    ++ (if (conflictOutOf env q).isSome && hasConflictOf env q then
      ["Answer conflict: " ++ optS (conflictOutOf env q) (fun r => r.conflictType)
        ++ " — " ++ jsRender ((conflictOutOf env q).bind (fun o => o.result.explanation))]
     else [])
    ++ (if optB (drOutOf env q) (fun r => !r.currentRatingCorrect) then
      ["Difficulty: change to " ++ optS (drOutOf env q) (fun r => r.difficulty)]
     else [])
    ++ (if !(optB (ucOutOf env q) (fun r => r.belongsInUnit)) then
      ["Unit mismatch: move to \"" ++ optSU (ucOutOf env q) (fun r => r.suggestedUnit) ++ "\""]
     else [])
    ++ (if optB (explOutOf env q)
          (fun r => r.quality == "Needs Improvement" || r.quality == "Poor") then
      ["Explanation: " ++ optS (explOutOf env q) (fun r => r.improvementSuggestion)]
     else [])
    ++ (if optB (calcOutOf env q) (fun r => r.requiresCalculation) then
      ["Add calculation: " ++ optS (calcOutOf env q) (fun r => r.calculationSteps)]
     else [])
  if parts = [] then ["c) Kept as is — all checks passed"] else parts

def optLog {α : Type} (o : Option (AgentOut α)) : List String :=
  match o with
  | some x => x.log
  | none => []

/-- The full per-review log, in the sequential causal order of the stages. -/
def agentLogOf (env : ReviewEnv) (q : Question) : List String :=
  (planOutOf env q).log ++ optLog (avOutOf env q) ++ optLog (drOutOf env q)
    ++ optLog (ucOutOf env q) ++ optLog (conflictOutOf env q)
    ++ optLog (explOutOf env q) ++ optLog (memOutOf env q)
    ++ optLog (calcOutOf env q)
    ++ ["✓ Complete in " ++ env.elapsed ++ "s — "
          ++ toString (planOf env q).agents.length ++ " agents ran"]

/-- The synthesised review record; fields absent on the error path are
`Option`-typed (JS `undefined`). -/
structure ReviewResult where
  status : String
  needsHuman : Bool
  hasConflict : Bool
  elapsed : Option String
  agentLog : List String
  plan : Option Plan
  finalAnswer : String
  correctAnswer : Option String
  answerVerdict : Option String
  answerConfidence : Option String
  answerReasoning : Option String
  conflictType : Option String
  conflictExplanation : Option String
  difficulty : String
  difficultyReasoning : Option String
  difficultyChanged : Bool
  unitMatch : Option Bool
  suggestedUnit : Option String
  questionType : String
  yearDependentReason : Option String
  explanationQuality : Option String
  explanationScore : Option Nat
  explanationImprovements : Option String
  explanationSuggestion : Option String
  needsCalculation : Option Bool
  calculationSteps : Option String
  thresholds : Option String
  memoryTrick : Option String
  memoryType : Option String
  keyConceptSummary : Option String
  queries : String
deriving DecidableEq, Repr

/-- `reviewQuestion(question)`: the whole coordination pipeline, including the
top-level catch that converts an unrecoverable system error into a
`status: 'error'` result. -/
def reviewQuestion (env : ReviewEnv) (q : Question) : ReviewResult :=
  match env.sysError with
  | some msg =>
    { status := "error", needsHuman := true, hasConflict := false,
      elapsed := none,
      agentLog := ["💥 System error: " ++ msg],
      plan := none,
      finalAnswer := jsOr q.finalAnswer q.rightOption,
      correctAnswer := none, answerVerdict := none, answerConfidence := none,
      answerReasoning := none, conflictType := none, conflictExplanation := none,
      difficulty := q.difficulty, difficultyReasoning := none,
      difficultyChanged := false, unitMatch := none, suggestedUnit := none,
      questionType := "", yearDependentReason := none,
      explanationQuality := none, explanationScore := none,
      explanationImprovements := none, explanationSuggestion := none,
      needsCalculation := none, calculationSteps := none, thresholds := none,
      memoryTrick := none, memoryType := none, keyConceptSummary := none,
      queries := "⚠ SYSTEM ERROR — needs human review: " ++ msg }
  | none =>
    { status := "done"
      needsHuman := needsHumanOf env q
      hasConflict := hasConflictOf env q
      elapsed := some env.elapsed
      agentLog := agentLogOf env q
      plan := some (planOf env q)
      finalAnswer := finalAnswerOf env q
      correctAnswer := (avOutOf env q).map (fun o => o.result.correctAnswer)
      answerVerdict := (avOutOf env q).map (fun o => o.result.verdict)
      answerConfidence := (avOutOf env q).map (fun o => o.result.confidence)
      answerReasoning := (avOutOf env q).bind (fun o => o.result.reasoning)
      conflictType := (conflictOutOf env q).map (fun o => o.result.conflictType)
      conflictExplanation := (conflictOutOf env q).bind (fun o => o.result.explanation)
      difficulty := jsOr (optS (drOutOf env q) (fun r => r.difficulty)) q.difficulty
      difficultyReasoning := (drOutOf env q).map (fun o => o.result.reasoning)
      difficultyChanged := optB (drOutOf env q) (fun r => !r.currentRatingCorrect)
      unitMatch := (ucOutOf env q).map (fun o => o.result.belongsInUnit)
      suggestedUnit := (ucOutOf env q).map (fun o => o.result.suggestedUnit)
      questionType := jsOr (optS (ucOutOf env q) (fun r => r.questionType)) q.category
      yearDependentReason := (ucOutOf env q).bind (fun o => o.result.yearDependentReason)
      explanationQuality := (explOutOf env q).map (fun o => o.result.quality)
      explanationScore := (explOutOf env q).map (fun o => o.result.score)
      explanationImprovements :=
        (explOutOf env q).map (fun o => String.intercalate "; " o.result.missingElements)
      explanationSuggestion := (explOutOf env q).map (fun o => o.result.improvementSuggestion)
      needsCalculation := (calcOutOf env q).map (fun o => o.result.requiresCalculation)
      calculationSteps := (calcOutOf env q).map (fun o => o.result.calculationSteps)
      thresholds :=
        (calcOutOf env q).map (fun o => String.intercalate ", " o.result.thresholdsInvolved)
      memoryTrick := (memOutOf env q).map (fun o => o.result.memoryTrick)
      memoryType := (memOutOf env q).map (fun o => o.result.type)
      keyConceptSummary := (memOutOf env q).map (fun o => o.result.keyConceptSummary)
      queries := String.intercalate " | " (queryPartsOf env q) }

-- ── The batch endpoint POST /api/review-all ──────────────────────────────────

/-- One entry pushed onto `results` in the batch loop: either the spread of a
completed `ReviewResult` or the literal per-question error object. -/
structure BatchEntry where
  index : Nat
  status : String
  needsHuman : Bool
  queries : String
  full : Option ReviewResult
deriving DecidableEq

/-- One iteration of the batch loop body: run `reviewQuestion` inside the
per-question try, or record the error entry `{index, status: 'error',
needsHuman: true, queries: '⚠ Error: ' + e.message}`. -/
def mkBatchEntry (i : Nat) (o : Except String ReviewEnv) (q : Question) : BatchEntry :=
  match o with
  | .ok env =>
    let r := reviewQuestion env q
    { index := i, status := r.status, needsHuman := r.needsHuman,
      queries := r.queries, full := some r }
  | .error msg =>
    { index := i, status := "error", needsHuman := true,
      queries := "⚠ Error: " ++ msg, full := none }

def reviewAllGo (benv : Nat → Except String ReviewEnv) (i : Nat) :
    List Question → List BatchEntry
  | [] => []
  | q :: qs => mkBatchEntry i (benv i) q :: reviewAllGo benv (i + 1) qs

/-- The `/api/review-all` loop: strictly sequential, one entry per question,
starting at index 0. `benv i` is the environment (or thrown error) for the
i-th question. -/
def reviewAll (benv : Nat → Except String ReviewEnv) (qs : List Question) :
    List BatchEntry :=
  reviewAllGo benv 0 qs

-- ── The Structured Response Parser (parseJSON) ───────────────────────────────

/-!
`parseJSON` cleans the raw model text with three global regex replacements —
`/```json\n?/gi`, then `/```\n?/g`, then `/<think>[\s\S]*?<\/think>/gi` — trims
the result, and decodes the substring spanning the first `\x7b` and the last
`\x7d`.  Case-insensitive literal patterns are modelled as a list of allowed
characters per position; a global replacement is a single left-to-right
non-overlapping scan, which is what the recursive strip functions implement.
-/

/-- Boolean membership of a character in a list of admissible characters. -/
def chrIn (c : Char) : List Char → Bool
  | [] => false
  | a :: as => c == a || chrIn c as

/-- Does the string start with the pattern (one list of admissible characters
per position)? -/
def matchesAt : List (List Char) → List Char → Bool
  | [], _ => true
  | _ :: _, [] => false
  | as :: ps, c :: cs => chrIn c as && matchesAt ps cs

/-- A case-sensitive literal as a per-position pattern. -/
def litPat (s : List Char) : List (List Char) := s.map (fun c => [c])

/-- `/```json/i` — three backticks then `json` in either case. -/
def fenceJsonPat : List (List Char) :=
  [['`'], ['`'], ['`'], ['j', 'J'], ['s', 'S'], ['o', 'O'], ['n', 'N']]

def fencePat : List (List Char) := [['`'], ['`'], ['`']]

/-- `/<think>/i`. -/
def thinkOpenPat : List (List Char) :=
  [['<'], ['t', 'T'], ['h', 'H'], ['i', 'I'], ['n', 'N'], ['k', 'K'], ['>']]

/-- `/<\/think>/i`. -/
def thinkClosePat : List (List Char) :=
  [['<'], ['/'], ['t', 'T'], ['h', 'H'], ['i', 'I'], ['n', 'N'], ['k', 'K'], ['>']]

/-- Global replacement of `/```json\n?/gi` by the empty string: scan left to
right, on a match drop the seven pattern characters plus a greedy optional
newline, and continue after the match. -/
def stripFenceJson : List Char → List Char
  | [] => []
  | c :: cs =>
    if matchesAt fenceJsonPat (c :: cs) then
      if (cs.drop 6).head? = some '\n' then stripFenceJson (cs.drop 7)
      else stripFenceJson (cs.drop 6)
    else c :: stripFenceJson cs
termination_by s => s.length
decreasing_by
  · simp only [List.length_drop, List.length_cons]; omega
  · simp only [List.length_drop, List.length_cons]; omega
  · simp only [List.length_cons]; omega

/-- Global replacement of `/```\n?/g` by the empty string. -/
def stripFence : List Char → List Char
  | [] => []
  | c :: cs =>
    if matchesAt fencePat (c :: cs) then
      if (cs.drop 2).head? = some '\n' then stripFence (cs.drop 3)
      else stripFence (cs.drop 2)
    else c :: stripFence cs
termination_by s => s.length
decreasing_by
  · simp only [List.length_drop, List.length_cons]; omega
  · simp only [List.length_drop, List.length_cons]; omega
  · simp only [List.length_cons]; omega

/-- Index of the first (case-insensitive) occurrence of `</think>`. -/
def findClose : List Char → Option Nat
  | [] => none
  | c :: cs =>
    if matchesAt thinkClosePat (c :: cs) then some 0
    else (findClose cs).map (· + 1)

/-- Global replacement of `/<think>[\s\S]*?<\/think>/gi` by the empty string:
a lazy body runs to the first close marker; an open marker with no close after
it never matches. -/
def stripThink : List Char → List Char
  | [] => []
  | c :: cs =>
    if matchesAt thinkOpenPat (c :: cs) then
      match findClose (cs.drop 6) with
      | some d => stripThink ((cs.drop 6).drop (d + 8))
      | none => c :: stripThink cs
    else c :: stripThink cs
termination_by s => s.length
decreasing_by
  · simp only [List.length_drop, List.length_cons]; omega
  · simp only [List.length_cons]; omega
  · simp only [List.length_cons]; omega

/-- JS whitespace for `String.prototype.trim` (the ASCII part). -/
def wsChar (c : Char) : Bool :=
  c = ' ' || c = '\n' || c = '\t' || c = '\r' || c = '\x0b' || c = '\x0c'

def trimEnd (s : List Char) : List Char :=
  (s.reverse.dropWhile wsChar).reverse

def trimJS (s : List Char) : List Char :=
  trimEnd (s.dropWhile wsChar)

/-- The cleaned text handed to the brace search. -/
def cleanResponse (raw : List Char) : List Char :=
  trimJS (stripThink (stripFence (stripFenceJson raw)))

/-- `clean.slice(start, end + 1)` where `start` is the first `\x7b` and `end`
the last `\x7d`. -/
def braceSlice (s : List Char) : List Char :=
  ((s.dropWhile (· ≠ '\x7b')).reverse.dropWhile (· ≠ '\x7d')).reverse

/-- `parseJSON`, parameterised by the decoding of the extracted span (the
`JSON.parse` plus field-typing step): clean, fail when no brace span exists,
then decode the span. -/
def parseJSONWith {α : Type} (decode : List Char → Option α) (raw : List Char) :
    Option α :=
  let clean := cleanResponse raw
  if '\x7b' ∈ clean ∧ '\x7d' ∈ clean then decode (braceSlice clean) else none

/-- A response wrapped in a fenced code block with an embedded reasoning block
prepended, as in the round-trip property. -/
def wrapResponse (reasoning t : List Char) : List Char :=
  "<think>".data ++ reasoning ++ "</think>\n```json\n".data ++ t ++ "\n```".data

-- ── Derived predicates used by the claims ────────────────────────────────────

/-- One call attempt at (provider, tier) fails: the transport call throws, or
its raw text does not decode. -/
def callFails {α : Type} (e : AgentEnv α) (p : Provider) (t : Tier) : Bool :=
  match e.call p t with
  | .error _ => true
  | .ok raw =>
    match e.decode raw with
    | .ok _ => false
    | .error _ => true

/-- A log line emitted by the Conflict Analyzer: its progress and summary
lines begin with the lightning glyph, its failure line with the fixed warning
head. -/
def isConflictLine (line : String) : Bool :=
  (line.data.head? == some '⚡')
    || matchesAt (litPat "⚠ Conflict Analyzer failed:".data) line.data

-- ── Concrete fixtures for witnesses and counterexamples ──────────────────────

/-- An environment whose every call and every parse fails. -/
def failEnv (α : Type) : AgentEnv α :=
  { call := fun _ _ => .error "groq API error 500: overloaded"
    decode := fun _ => .error "No JSON object found in response" }

/-- An environment whose call succeeds and decodes to the given record. -/
def okEnv {α : Type} (a : α) : AgentEnv α :=
  { call := fun _ _ => .ok "raw model text", decode := fun _ => .ok a }

def q0 : Question :=
  { code := "E2-001", chapter := "3", unit := "Individual Income"
    question := "Which filing status applies?"
    optionA := "Single", optionB := "MFJ", optionC := "MFS", optionD := "HoH"
    rightOption := "A", feedback := "", aiAnswer := "A", finalAnswer := "A"
    finalExplanation := "", difficulty := "Easy", category := "", queries := "" }

/-- A question whose manual and AI answers disagree. -/
def qConflict : Question :=
  { q0 with rightOption := "A", aiAnswer := "B", finalAnswer := "A" }

/-- A question whose text contains a currency marker. -/
def qNumeric : Question :=
  { q0 with question := "What is the $10,000 SALT cap percentage?" }

def verifierB : VerifierResult :=
  { correctAnswer := "B", confidence := "high", reasoning := some "IRC 1"
    verdict := "ai_correct", needsHumanReview := false, humanReviewReason := "" }

def verifierAgree : VerifierResult :=
  { correctAnswer := "A", confidence := "high", reasoning := some "IRC 1"
    verdict := "both_correct", needsHumanReview := false, humanReviewReason := "" }

/-- System-error environment for the C1 witness. -/
def envSys : ReviewEnv :=
  { sysError := some "boom", elapsed := "0.1"
    orch := failEnv _, av := failEnv _, conflict := failEnv _, diff := failEnv _
    unit := failEnv _, expl := failEnv _, mem := failEnv _, calcE := failEnv _ }

/-- Everything fails except that there is no system error: the orchestrator
falls back to the default plan and every agent degrades. -/
def envAllFail : ReviewEnv :=
  { envSys with sysError := none }

/-- C2 counterexample environment: default plan (orchestrator fails), the
Answer Verifier succeeds with `B`, the Conflict Analyzer fails and returns its
degraded placeholder. -/
def envC2 : ReviewEnv :=
  { envAllFail with av := okEnv verifierB }

/-- C4 counterexample environment: the orchestrator returns a plan without
`answer_verifier` and without `conflict_analyzer`. -/
def envC4 : ReviewEnv :=
  { envAllFail with
    orch := okEnv { agents := ["difficulty_rater"], reasoning := "skip verification"
                    hasAnswerConflict := true, isNumerical := false } }

/-- C6 counterexample environment: an orchestrator-produced plan that omits
`calculation_checker` and marks the question non-numeric. -/
def envC6 : ReviewEnv :=
  { envAllFail with
    orch := okEnv { agents := ["answer_verifier"], reasoning := "minimal"
                    hasAnswerConflict := false, isNumerical := false } }

/-- A plan-produced environment whose plan marks the question numeric while
omitting `calculation_checker`. -/
def envC6num : ReviewEnv :=
  { envAllFail with
    orch := okEnv { agents := ["answer_verifier"], reasoning := "minimal"
                    hasAnswerConflict := false, isNumerical := true } }

/-- C5 witness environment: default plan, agreeing verifier verdict. -/
def envC5 : ReviewEnv :=
  { envAllFail with av := okEnv verifierAgree }

-- ── C1 ───────────────────────────────────────────────────────────────────────

/-- C1: for every Question record, `reviewQuestion` never throws past its
boundary: it always returns a ReviewResult whose status is `done` or `error`;
and whenever an unrecoverable error is caught at the coordination level, the
result has status `error`, needsHuman true, and a query summary naming the
system error. -/
theorem reviewQuestion_status_total (env : ReviewEnv) (q : Question) :
    ((reviewQuestion env q).status = "done" ∨ (reviewQuestion env q).status = "error")
    ∧ (∀ msg, env.sysError = some msg →
        (reviewQuestion env q).status = "error"
        ∧ (reviewQuestion env q).needsHuman = true
        ∧ (reviewQuestion env q).queries
            = "⚠ SYSTEM ERROR — needs human review: " ++ msg) := by
  constructor
  · cases h : env.sysError <;> simp [reviewQuestion, h]
  · intro msg hm
    simp [reviewQuestion, hm]

theorem reviewQuestion_status_total_witness :
    (reviewQuestion envSys q0).status = "error"
    ∧ (reviewQuestion envSys q0).needsHuman = true
    ∧ (reviewQuestion envSys q0).queries
        = "⚠ SYSTEM ERROR — needs human review: boom" :=
  (reviewQuestion_status_total envSys q0).2 "boom" rfl

-- ── C9 ───────────────────────────────────────────────────────────────────────

/-- C9: for every Question with no explanation text, the Explanation Critic
returns quality `Missing` with score 0, makes no Inference Client call, and
appends its short-circuit notice to the log. -/
theorem explanationCritic_missing (env : AgentEnv ExplanationResult) (q : Question)
    (h1 : q.finalExplanation = "") (h2 : q.feedback = "") :
    (explanationCritic env q).result.quality = "Missing"
    ∧ (explanationCritic env q).result.score = 0
    ∧ (explanationCritic env q).attempts = []
    ∧ "📝 Explanation Critic: No explanation found — flagging for creation"
        ∈ (explanationCritic env q).log := by
  simp [explanationCritic, h1, h2, jsOr, explanationMissing]

theorem explanationCritic_missing_witness :
    (explanationCritic (failEnv _) q0).result.quality = "Missing"
    ∧ (explanationCritic (failEnv _) q0).result.score = 0
    ∧ (explanationCritic (failEnv _) q0).attempts = []
    ∧ "📝 Explanation Critic: No explanation found — flagging for creation"
        ∈ (explanationCritic (failEnv _) q0).log :=
  explanationCritic_missing (failEnv _) q0 rfl rfl

-- ── C10 ──────────────────────────────────────────────────────────────────────

/-- When all three of the Answer Verifier's call attempts fail, it returns the
degraded default: verdict `uncertain` and an escalation request. -/
theorem answerVerifier_allFail (e : AgentEnv VerifierResult) (q : Question)
    (h1 : callFails e .groq .reason = true)
    (h2 : callFails e .groq .smart = true)
    (h3 : callFails e .openrouter .smart = true) :
    (answerVerifier e q).result.verdict = "uncertain"
    ∧ (answerVerifier e q).result.needsHumanReview = true := by
  unfold callFails at h1 h2 h3
  unfold answerVerifier avOpenrouterFallback
  cases hc1 : e.call Provider.groq Tier.reason with
  | ok raw1 =>
    cases hd1 : e.decode raw1 with
    | ok r => simp [hc1, hd1] at h1
    | error e1 =>
      cases hc3 : e.call Provider.openrouter Tier.smart with
      | ok raw3 =>
        cases hd3 : e.decode raw3 with
        | ok r => simp [hc3, hd3] at h3
        | error e3 => simp [hc1, hd1, hc3, hd3, verifierDefault]
      | error e3 => simp [hc1, hd1, hc3, verifierDefault]
  | error e1 =>
    cases hc2 : e.call Provider.groq Tier.smart with
    | ok raw2 =>
      cases hd2 : e.decode raw2 with
      | ok r => simp [hc2, hd2] at h2
      | error e2 =>
        cases hc3 : e.call Provider.openrouter Tier.smart with
        | ok raw3 =>
          cases hd3 : e.decode raw3 with
          | ok r => simp [hc3, hd3] at h3
          | error e3 => simp [hc1, hc2, hd2, hc3, hd3, verifierDefault]
        | error e3 => simp [hc1, hc2, hd2, hc3, verifierDefault]
    | error e2 =>
      cases hc3 : e.call Provider.openrouter Tier.smart with
      | ok raw3 =>
        cases hd3 : e.decode raw3 with
        | ok r => simp [hc3, hd3] at h3
        | error e3 => simp [hc1, hc2, hc3, hd3, verifierDefault]
      | error e3 => simp [hc1, hc2, hc3, verifierDefault]

/-- C10: for every question on which every Answer Verifier call attempt fails,
a completed review carries needsHuman true and answerVerdict `uncertain`:
total verifier failure always escalates to human review. -/
theorem reviewQuestion_verifier_total_failure (env : ReviewEnv) (q : Question)
    (hs : env.sysError = none)
    (hp : (planOf env q).agents.contains "answer_verifier" = true)
    (h1 : callFails env.av .groq .reason = true)
    (h2 : callFails env.av .groq .smart = true)
    (h3 : callFails env.av .openrouter .smart = true) :
    (reviewQuestion env q).status = "done"
    ∧ (reviewQuestion env q).needsHuman = true
    ∧ (reviewQuestion env q).answerVerdict = some "uncertain" := by
  have hp' : "answer_verifier" ∈ (planOf env q).agents := by simpa using hp
  have hav : avOutOf env q = some (answerVerifier env.av q) := by
    simp [avOutOf, hp']
  have h := answerVerifier_allFail env.av q h1 h2 h3
  refine ⟨by simp [reviewQuestion, hs], ?_, ?_⟩
  · simp [reviewQuestion, hs, needsHumanOf, hav, optB, h.2]
  · simp [reviewQuestion, hs, hav, h.1]

theorem reviewQuestion_verifier_total_failure_witness :
    (reviewQuestion envAllFail q0).status = "done"
    ∧ (reviewQuestion envAllFail q0).needsHuman = true
    ∧ (reviewQuestion envAllFail q0).answerVerdict = some "uncertain" :=
  reviewQuestion_verifier_total_failure envAllFail q0 rfl (by decide)
    (by decide) (by decide) (by decide)

-- ── C2 ───────────────────────────────────────────────────────────────────────

/-- C2 counterexample: with a manual/AI disagreement, a verifier that produces
the usable answer `B`, and a Conflict Analyzer whose calls fail, the Conflict
Analyzer's degraded placeholder `?` is NOT treated as absent: the synthesized
finalAnswer is `?`, not the verifier's `B`. -/
theorem finalAnswer_placeholder_counterexample :
    (conflictOutOf envC2 qConflict).isSome = true
    ∧ (conflictOutOf envC2 qConflict).map (fun o => o.result.finalRecommendedAnswer)
        = some "?"
    ∧ (avOutOf envC2 qConflict).map (fun o => o.result.correctAnswer) = some "B"
    ∧ (reviewQuestion envC2 qConflict).finalAnswer = "?" := by
  decide

/-- C2 amended: finalAnswer is the first JS-truthy (non-empty) candidate of:
the Conflict Analyzer's recommendation if it ran (a degraded default's
placeholder `?` counts as produced), else the Answer Verifier's answer if it
ran (placeholder likewise counts), else the question's final answer field,
else its manual answer field. -/
theorem finalAnswer_priority (env : ReviewEnv) (q : Question)
    (hs : env.sysError = none) :
    (optS (conflictOutOf env q) (fun r => r.finalRecommendedAnswer) ≠ "" →
      (reviewQuestion env q).finalAnswer
        = optS (conflictOutOf env q) (fun r => r.finalRecommendedAnswer))
    ∧ (optS (conflictOutOf env q) (fun r => r.finalRecommendedAnswer) = "" →
       optS (avOutOf env q) (fun r => r.correctAnswer) ≠ "" →
      (reviewQuestion env q).finalAnswer
        = optS (avOutOf env q) (fun r => r.correctAnswer))
    ∧ (optS (conflictOutOf env q) (fun r => r.finalRecommendedAnswer) = "" →
       optS (avOutOf env q) (fun r => r.correctAnswer) = "" →
       q.finalAnswer ≠ "" →
      (reviewQuestion env q).finalAnswer = q.finalAnswer)
    ∧ (optS (conflictOutOf env q) (fun r => r.finalRecommendedAnswer) = "" →
       optS (avOutOf env q) (fun r => r.correctAnswer) = "" →
       q.finalAnswer = "" →
      (reviewQuestion env q).finalAnswer = q.rightOption) := by
  refine ⟨?_, ?_, ?_, ?_⟩ <;>
    simp only [reviewQuestion, hs, finalAnswerOf, jsOr] <;> intros <;>
    simp [*]

theorem finalAnswer_priority_witness :
    optS (conflictOutOf envC2 qConflict) (fun r => r.finalRecommendedAnswer) ≠ ""
    ∧ (reviewQuestion envC2 qConflict).finalAnswer
        = optS (conflictOutOf envC2 qConflict) (fun r => r.finalRecommendedAnswer) :=
  ⟨by decide, (finalAnswer_priority envC2 qConflict rfl).1 (by decide)⟩

-- ── C4 ───────────────────────────────────────────────────────────────────────

/-- C4 counterexample: a plan without `answer_verifier` and a question whose
manual answer differs from its AI answer: a disagreement is detected, yet the
Conflict Analyzer does not run, because its gate also requires the Answer
Verifier's result to be present. -/
theorem conflictAnalyzer_needs_verifier_counterexample :
    hasConflictOf envC4 qConflict = true
    ∧ (planOf envC4 qConflict).agents.contains "conflict_analyzer" = false
    ∧ conflictOutOf envC4 qConflict = none := by
  decide

/-- C4 amended: the plan's agent set is advisory with one proviso: whenever a
disagreement is detected, the Conflict Analyzer runs even if absent from the
plan's agent set, provided the Answer Verifier itself ran (its result is a
structural input); whenever the plan marks the question numeric, the
Calculation Checker runs even if absent from the agent set. -/
theorem forced_agents_advisory (env : ReviewEnv) (q : Question) :
    (hasConflictOf env q = true → (avOutOf env q).isSome = true →
      (conflictOutOf env q).isSome = true)
    ∧ ((planOf env q).isNumerical = true → (calcOutOf env q).isSome = true) := by
  constructor
  · intro hc hav
    unfold conflictOutOf
    cases h : avOutOf env q with
    | none => rw [h] at hav; simp at hav
    | some avO => simp [hc]
  · intro hn
    simp [calcOutOf, hn]

theorem forced_agents_advisory_witness :
    (conflictOutOf envC2 qConflict).isSome = true
    ∧ (calcOutOf envC6num qNumeric).isSome = true :=
  ⟨(forced_agents_advisory envC2 qConflict).1 (by decide) (by decide),
   (forced_agents_advisory envC6num qNumeric).2 (by decide)⟩

-- ── C6 ───────────────────────────────────────────────────────────────────────

/-- C6 counterexample: a question whose text contains a currency marker, with
an orchestrator-produced plan that omits `calculation_checker` and carries
`isNumerical = false`: the Calculation Checker does not run, because the
forced-inclusion trigger is the plan's flag, not the question text. -/
theorem calcChecker_text_marker_counterexample :
    jsNumericTest qNumeric.question = true
    ∧ (planOf envC6 qNumeric).agents.contains "calculation_checker" = false
    ∧ calcOutOf envC6 qNumeric = none := by
  decide

/-- C6 amended: the Calculation Checker runs whenever the governing plan's
isNumerical flag is set, even if `calculation_checker` is omitted from the
plan's agent set; when planning fails and the fallback default plan is used,
that flag is exactly the currency/percent/quantity keyword test on the
question text, so forced inclusion does apply to marker-containing questions
under the default plan. -/
theorem calcChecker_forced_by_plan_flag (env : ReviewEnv) (q : Question) :
    ((planOf env q).isNumerical = true → (calcOutOf env q).isSome = true)
    ∧ (∀ e, env.orch.call .groq .fast = .error e → planOf env q = defaultPlan q)
    ∧ ((defaultPlan q).isNumerical = jsNumericTest q.question) := by
  refine ⟨fun hn => by simp [calcOutOf, hn], fun e he => ?_, rfl⟩
  simp [planOf, planOutOf, orchestrate, he]

theorem calcChecker_forced_by_plan_flag_witness :
    (calcOutOf envAllFail qNumeric).isSome = true
    ∧ planOf envAllFail qNumeric = defaultPlan qNumeric := by
  refine ⟨(calcChecker_forced_by_plan_flag envAllFail qNumeric).1 (by decide), ?_⟩
  exact (calcChecker_forced_by_plan_flag envAllFail qNumeric).2.1
    "groq API error 500: overloaded" rfl

-- ── C3 ───────────────────────────────────────────────────────────────────────

/-- C3 counterexample: with a failing primary call, the Difficulty Rater makes
exactly one call attempt in total — zero fallback hops, not the claimed
exactly-one — and returns its degraded default immediately. -/
theorem difficultyRater_zero_fallback_counterexample :
    callFails (failEnv DifficultyResult) .groq .fast = true
    ∧ (difficultyRater (failEnv DifficultyResult) q0).attempts
        = [(.groq, .fast)]
    ∧ (difficultyRater (failEnv DifficultyResult) q0).result = difficultyDefault q0
    ∧ ¬ (difficultyRater (failEnv DifficultyResult) q0).attempts.length = 2 := by
  decide

/-- C3 amended: only the Answer Verifier has a fallback chain — it makes one,
two or three call attempts, ending at (openrouter, smart) after any first-stage
failure. Every other agent makes exactly one call attempt (the Explanation
Critic makes none when the question has no explanation) and, when that attempt
fails, returns its degraded default with zero fallback hops. -/
theorem agent_fallback_structure (q : Question) :
    (∀ e : AgentEnv Plan, (orchestrate e q).attempts = [(.groq, .fast)])
    ∧ (∀ (e : AgentEnv ConflictResult) (ar : VerifierResult),
        (conflictAnalyzer e q ar).attempts = [(.groq, .smart)])
    ∧ (∀ e : AgentEnv DifficultyResult,
        (difficultyRater e q).attempts = [(.groq, .fast)])
    ∧ (∀ e : AgentEnv UnitResult, (unitChecker e q).attempts = [(.groq, .fast)])
    ∧ (∀ e : AgentEnv MemoryResult,
        (memoryTrickGenerator e q).attempts = [(.groq, .fast)])
    ∧ (∀ e : AgentEnv CalcResult,
        (calculationChecker e q).attempts = [(.groq, .fast)])
    ∧ (∀ e : AgentEnv ExplanationResult,
        (explanationCritic e q).attempts = []
        ∨ (explanationCritic e q).attempts = [(.groq, .smart)])
    ∧ (∀ e : AgentEnv VerifierResult,
        (answerVerifier e q).attempts = [(.groq, .reason)]
        ∨ (answerVerifier e q).attempts = [(.groq, .reason), (.groq, .smart)]
        ∨ (answerVerifier e q).attempts = [(.groq, .reason), (.openrouter, .smart)]
        ∨ (answerVerifier e q).attempts
            = [(.groq, .reason), (.groq, .smart), (.openrouter, .smart)])
    ∧ (∀ (e : AgentEnv DifficultyResult), callFails e .groq .fast = true →
        (difficultyRater e q).result = difficultyDefault q)
    ∧ (∀ (e : AgentEnv ConflictResult) (ar : VerifierResult),
        callFails e .groq .smart = true →
        ∃ msg, (conflictAnalyzer e q ar).result = conflictDefault msg) := by
  refine ⟨?_, ?_, ?_, ?_, ?_, ?_, ?_, ?_, ?_, ?_⟩
  · intro e
    unfold orchestrate
    cases h : e.call Provider.groq Tier.fast with
    | ok raw => cases hd : e.decode raw <;> simp [hd]
    | error er => simp
  · intro e ar
    unfold conflictAnalyzer
    cases h : e.call Provider.groq Tier.smart with
    | ok raw => cases hd : e.decode raw <;> simp [hd]
    | error er => simp
  · intro e
    unfold difficultyRater
    cases h : e.call Provider.groq Tier.fast with
    | ok raw => cases hd : e.decode raw <;> simp [hd]
    | error er => simp
  · intro e
    unfold unitChecker
    cases h : e.call Provider.groq Tier.fast with
    | ok raw => cases hd : e.decode raw <;> simp [hd]
    | error er => simp
  · intro e
    unfold memoryTrickGenerator
    cases h : e.call Provider.groq Tier.fast with
    | ok raw => cases hd : e.decode raw <;> simp [hd]
    | error er => simp
  · intro e
    unfold calculationChecker
    cases h : e.call Provider.groq Tier.fast with
    | ok raw => cases hd : e.decode raw <;> simp [hd]
    | error er => simp
  · intro e
    unfold explanationCritic
    by_cases hx : jsOr q.finalExplanation (jsOr q.feedback "") = ""
    · left; simp [hx]
    · right
      simp only [hx, if_neg]
      cases h : e.call Provider.groq Tier.smart with
      | ok raw => cases hd : e.decode raw <;> simp [hx, hd]
      | error er => simp [hx]
  · intro e
    unfold answerVerifier avOpenrouterFallback
    cases hc1 : e.call Provider.groq Tier.reason with
    | ok raw1 =>
      cases hd1 : e.decode raw1 with
      | ok r => left; simp [hd1]
      | error e1 =>
        cases hc3 : e.call Provider.openrouter Tier.smart with
        | ok raw3 =>
          cases hd3 : e.decode raw3 <;>
            (right; right; left; simp [hd1, hc3, hd3])
        | error e3 => right; right; left; simp [hd1, hc3]
    | error e1 =>
      cases hc2 : e.call Provider.groq Tier.smart with
      | ok raw2 =>
        cases hd2 : e.decode raw2 with
        | ok r => right; left; simp [hc2, hd2]
        | error e2 =>
          cases hc3 : e.call Provider.openrouter Tier.smart with
          | ok raw3 =>
            cases hd3 : e.decode raw3 <;>
              (right; right; right; simp [hc2, hd2, hc3, hd3])
          | error e3 => right; right; right; simp [hc2, hd2, hc3]
      | error e2 =>
        cases hc3 : e.call Provider.openrouter Tier.smart with
        | ok raw3 =>
          cases hd3 : e.decode raw3 <;>
            (right; right; right; simp [hc2, hc3, hd3])
        | error e3 => right; right; right; simp [hc2, hc3]
  · intro e hf
    unfold callFails at hf
    unfold difficultyRater
    cases h : e.call Provider.groq Tier.fast with
    | ok raw =>
      cases hd : e.decode raw with
      | ok r => simp [h, hd] at hf
      | error er => simp [hd]
    | error er => simp
  · intro e ar hf
    unfold callFails at hf
    unfold conflictAnalyzer
    cases h : e.call Provider.groq Tier.smart with
    | ok raw =>
      cases hd : e.decode raw with
      | ok r => simp [h, hd] at hf
      | error er => exact ⟨er, by simp [hd]⟩
    | error er => exact ⟨er, by simp⟩

theorem agent_fallback_structure_witness :
    (difficultyRater (failEnv DifficultyResult) q0).result = difficultyDefault q0
    ∧ (∃ msg, (conflictAnalyzer (failEnv ConflictResult) q0 verifierB).result
        = conflictDefault msg) :=
  ⟨(agent_fallback_structure q0).2.2.2.2.2.2.2.2.1 (failEnv _) (by decide),
   (agent_fallback_structure q0).2.2.2.2.2.2.2.2.2 (failEnv _) verifierB (by decide)⟩

-- ── C7 ───────────────────────────────────────────────────────────────────────

theorem reviewAllGo_length (benv : Nat → Except String ReviewEnv) :
    ∀ (qs : List Question) (i0 : Nat), (reviewAllGo benv i0 qs).length = qs.length := by
  intro qs
  induction qs with
  | nil => intro i0; rfl
  | cons q qs ih => intro i0; simp [reviewAllGo, ih]

theorem reviewAllGo_getElem (benv : Nat → Except String ReviewEnv) :
    ∀ (qs : List Question) (i0 i : Nat) (q : Question), qs[i]? = some q →
      (reviewAllGo benv i0 qs)[i]? = some (mkBatchEntry (i0 + i) (benv (i0 + i)) q) := by
  intro qs
  induction qs with
  | nil => intro i0 i q h; simp at h
  | cons p ps ih =>
    intro i0 i q h
    cases i with
    | zero => simp at h; simp [reviewAllGo, h]
    | succ j =>
      simp only [List.getElem?_cons_succ] at h
      have := ih (i0 + 1) j q h
      simpa [reviewAllGo, Nat.add_assoc, Nat.add_comm 1 j] using this

/-- C7: the batch endpoint processes the ordered question sequence strictly
sequentially, emitting exactly one entry per input element with index
correspondence preserved: entry i is exactly the outcome of reviewing question
i under its own environment (an error entry when that review throws), so one
question's failure never affects any other index. -/
theorem reviewAll_pointwise (benv : Nat → Except String ReviewEnv) (qs : List Question) :
    (reviewAll benv qs).length = qs.length
    ∧ (∀ i q, qs[i]? = some q →
        (reviewAll benv qs)[i]? = some (mkBatchEntry i (benv i) q))
    ∧ (∀ i q, qs[i]? = some q → ∀ ent : BatchEntry, (reviewAll benv qs)[i]? = some ent →
        ent.index = i)
    ∧ (∀ i q msg, qs[i]? = some q → benv i = .error msg →
        (reviewAll benv qs)[i]? = some
          { index := i, status := "error", needsHuman := true,
            queries := "⚠ Error: " ++ msg, full := none }) := by
  refine ⟨reviewAllGo_length benv qs 0, ?_, ?_, ?_⟩
  · intro i q h
    simpa using reviewAllGo_getElem benv qs 0 i q h
  · intro i q h ent hent
    have h2 := reviewAllGo_getElem benv qs 0 i q h
    rw [Nat.zero_add] at h2
    simp only [reviewAll] at hent
    rw [h2] at hent
    injection hent with he
    rw [← he]
    unfold mkBatchEntry
    cases benv i <;> rfl
  · intro i q msg h hb
    have h2 := reviewAllGo_getElem benv qs 0 i q h
    rw [Nat.zero_add] at h2
    simp only [reviewAll]
    rw [h2, hb]
    rfl

theorem reviewAll_pointwise_witness :
    (reviewAll (fun _ => .error "socket hang up") [q0, qConflict]).length = 2
    ∧ (reviewAll (fun _ => .error "socket hang up") [q0, qConflict])[1]? = some
        { index := 1, status := "error", needsHuman := true,
          queries := "⚠ Error: " ++ "socket hang up", full := none } :=
  ⟨(reviewAll_pointwise (fun _ => .error "socket hang up") [q0, qConflict]).1,
   (reviewAll_pointwise (fun _ => .error "socket hang up") [q0, qConflict]).2.2.2
     1 qConflict "socket hang up" rfl rfl⟩

-- ── C5 ───────────────────────────────────────────────────────────────────────

/-- Every line of a log segment avoids the Conflict Analyzer's line shapes. -/
def cleanLog (ls : List String) : Prop :=
  ∀ line ∈ ls, isConflictLine line = false

theorem matchesAt_take_false :
    ∀ (k : Nat) (pat : List (List Char)) (s : List Char),
      matchesAt (pat.take k) (s.take k) = false → matchesAt pat s = false := by
  intro k
  induction k with
  | zero => intro pat s hm; simp [matchesAt] at hm
  | succ k ih =>
    intro pat s hm
    cases pat with
    | nil => simp [matchesAt] at hm
    | cons as ps =>
      cases s with
      | nil => rfl
      | cons c cs =>
        simp only [List.take_cons, matchesAt] at hm ⊢
        cases hchr : chrIn c as with
        | false => simp
        | true =>
          rw [hchr] at hm
          simp only [Bool.true_and] at hm ⊢
          exact ih ps cs hm

/-- A line built as a fixed head (at least 4 characters, not starting with the
lightning glyph, mismatching the warning pattern within its first 4
characters) followed by arbitrary dynamic text is not a Conflict Analyzer
line. -/
theorem notConflict_append (head dyn : String)
    (h1 : 4 ≤ head.data.length)
    (h2 : matchesAt ((litPat "⚠ Conflict Analyzer failed:".data).take 4)
            (head.data.take 4) = false)
    (h3 : (head.data.head? == some '⚡') = false) :
    isConflictLine (head ++ dyn) = false := by
  unfold isConflictLine
  have hd : (head ++ dyn).data = head.data ++ dyn.data := rfl
  rw [hd]
  have hne : head.data ≠ [] := by
    intro hcon
    rw [hcon] at h1
    simp at h1
  rw [List.head?_append_of_ne_nil _ hne]
  rw [h3]
  simp only [Bool.false_or]
  apply matchesAt_take_false 4
  rw [List.take_append_of_le_length h1]
  exact h2

theorem orchestrate_log_clean (e : AgentEnv Plan) (q : Question) :
    cleanLog (orchestrate e q).log := by
  have hl0 : isConflictLine ("🎯 Orchestrator: Analyzing question " ++ (q.code ++ "...")) = false :=
    notConflict_append _ _ (by decide) (by decide) (by decide)
  have hplan : ∀ p : Plan, isConflictLine ("🎯 Orchestrator plan: ["
      ++ (String.intercalate ", " p.agents ++ (" — " ++ p.reasoning))) = false :=
    fun p => notConflict_append _ _ (by decide) (by decide) (by decide)
  have hwarn : ∀ s : String,
      isConflictLine ("⚠ Orchestrator fallback to default plan: " ++ s) = false :=
    fun s => notConflict_append _ _ (by decide) (by decide) (by decide)
  unfold orchestrate
  cases h : e.call Provider.groq Tier.fast with
  | ok raw =>
    cases hd : e.decode raw with
    | ok plan =>
      intro line hl
      simp only [hd, List.mem_cons, List.not_mem_nil, or_false] at hl
      rcases hl with h1 | h2
      · subst h1; simpa [String.append_assoc] using hl0
      · subst h2; simpa [String.append_assoc] using hplan plan
    | error er =>
      intro line hl
      simp only [hd, List.mem_cons, List.not_mem_nil, or_false] at hl
      rcases hl with h1 | h2
      · subst h1; simpa [String.append_assoc] using hl0
      · subst h2; exact hwarn er
  | error er =>
    intro line hl
    simp only [List.mem_cons, List.not_mem_nil, or_false] at hl
    rcases hl with h1 | h2
    · subst h1; simpa [String.append_assoc] using hl0
    · subst h2; exact hwarn er

theorem avOpenrouterFallback_log_clean (e : AgentEnv VerifierResult)
    (prev : List (Provider × Tier)) (l0 : String)
    (hcl0 : isConflictLine l0 = false) :
    cleanLog (avOpenrouterFallback e prev l0).log := by
  have hor : ∀ s : String,
      isConflictLine ("✅ Answer Verifier (OpenRouter fallback): " ++ s) = false :=
    fun s => notConflict_append _ _ (by decide) (by decide) (by decide)
  have hwarn : ∀ s : String, isConflictLine ("⚠ Answer Verifier failed: " ++ s) = false :=
    fun s => notConflict_append _ _ (by decide) (by decide) (by decide)
  unfold avOpenrouterFallback
  cases h : e.call Provider.openrouter Tier.smart with
  | ok raw =>
    cases hd : e.decode raw with
    | ok r =>
      intro line hl
      simp only [hd, List.mem_cons, List.not_mem_nil, or_false] at hl
      rcases hl with h1 | h2
      · subst h1; exact hcl0
      · subst h2; exact hor r.correctAnswer
    | error e2 =>
      intro line hl
      simp only [hd, List.mem_cons, List.not_mem_nil, or_false] at hl
      rcases hl with h1 | h2
      · subst h1; exact hcl0
      · subst h2; exact hwarn e2
  | error e2 =>
    intro line hl
    simp only [List.mem_cons, List.not_mem_nil, or_false] at hl
    rcases hl with h1 | h2
    · subst h1; exact hcl0
    · subst h2; exact hwarn e2

theorem answerVerifier_log_clean (e : AgentEnv VerifierResult) (q : Question) :
    cleanLog (answerVerifier e q).log := by
  have hl0 : isConflictLine "✅ Answer Verifier: Checking correct answer..." = false := by
    decide
  have hsucc : ∀ r : VerifierResult, isConflictLine (avSuccessLine r) = false := by
    intro r
    have := notConflict_append "✅ Answer Verifier: "
      (r.correctAnswer ++ (" (" ++ (r.confidence ++ (" confidence) — " ++ r.verdict))))
      (by decide) (by decide) (by decide)
    simpa [avSuccessLine, String.append_assoc] using this
  unfold answerVerifier
  cases hc1 : e.call Provider.groq Tier.reason with
  | ok raw1 =>
    cases hd1 : e.decode raw1 with
    | ok r =>
      intro line hl
      simp only [hd1, List.mem_cons, List.not_mem_nil, or_false] at hl
      rcases hl with h1 | h2
      · subst h1; exact hl0
      · subst h2; exact hsucc r
    | error e1 =>
      simp only [hd1]
      exact avOpenrouterFallback_log_clean e _ _ hl0
  | error e1 =>
    cases hc2 : e.call Provider.groq Tier.smart with
    | ok raw2 =>
      cases hd2 : e.decode raw2 with
      | ok r =>
        intro line hl
        simp only [hd2, List.mem_cons, List.not_mem_nil, or_false] at hl
        rcases hl with h1 | h2
        · subst h1; exact hl0
        · subst h2; exact hsucc r
      | error e2 =>
        simp only [hd2]
        exact avOpenrouterFallback_log_clean e _ _ hl0
    | error e2 =>
      exact avOpenrouterFallback_log_clean e _ _ hl0

theorem difficultyRater_log_clean (e : AgentEnv DifficultyResult) (q : Question) :
    cleanLog (difficultyRater e q).log := by
  have hl0 : isConflictLine "📊 Difficulty Rater: Assessing difficulty level..." = false := by
    decide
  have hsucc : ∀ r : DifficultyResult,
      isConflictLine ("📊 Difficulty Rater: " ++ (r.difficulty ++ (" (" ++ (r.suggestedChange ++ ")")))) = false :=
    fun r => notConflict_append _ _ (by decide) (by decide) (by decide)
  have hwarn : ∀ s : String, isConflictLine ("⚠ Difficulty Rater failed: " ++ s) = false :=
    fun s => notConflict_append _ _ (by decide) (by decide) (by decide)
  unfold difficultyRater
  cases h : e.call Provider.groq Tier.fast with
  | ok raw =>
    cases hd : e.decode raw with
    | ok r =>
      intro line hl
      simp only [hd, List.mem_cons, List.not_mem_nil, or_false] at hl
      rcases hl with h1 | h2
      · subst h1; exact hl0
      · subst h2; simpa [String.append_assoc] using hsucc r
    | error er =>
      intro line hl
      simp only [hd, List.mem_cons, List.not_mem_nil, or_false] at hl
      rcases hl with h1 | h2
      · subst h1; exact hl0
      · subst h2; exact hwarn er
  | error er =>
    intro line hl
    simp only [List.mem_cons, List.not_mem_nil, or_false] at hl
    rcases hl with h1 | h2
    · subst h1; exact hl0
    · subst h2; exact hwarn er

theorem unitChecker_log_clean (e : AgentEnv UnitResult) (q : Question) :
    cleanLog (unitChecker e q).log := by
  have hl0 : isConflictLine "📂 Unit Checker: Verifying unit placement..." = false := by
    decide
  have hsucc : ∀ r : UnitResult, isConflictLine (ucSuccessLine r) = false := by
    intro r
    unfold ucSuccessLine
    cases hb : r.belongsInUnit with
    | true => simp; decide
    | false =>
      simp only [Bool.false_eq_true, if_false]
      exact notConflict_append _ _ (by decide) (by decide) (by decide)
  have hwarn : ∀ s : String, isConflictLine ("⚠ Unit Checker failed: " ++ s) = false :=
    fun s => notConflict_append _ _ (by decide) (by decide) (by decide)
  unfold unitChecker
  cases h : e.call Provider.groq Tier.fast with
  | ok raw =>
    cases hd : e.decode raw with
    | ok r =>
      intro line hl
      simp only [hd, List.mem_cons, List.not_mem_nil, or_false] at hl
      rcases hl with h1 | h2
      · subst h1; exact hl0
      · subst h2; exact hsucc r
    | error er =>
      intro line hl
      simp only [hd, List.mem_cons, List.not_mem_nil, or_false] at hl
      rcases hl with h1 | h2
      · subst h1; exact hl0
      · subst h2; exact hwarn er
  | error er =>
    intro line hl
    simp only [List.mem_cons, List.not_mem_nil, or_false] at hl
    rcases hl with h1 | h2
    · subst h1; exact hl0
    · subst h2; exact hwarn er

theorem explanationCritic_log_clean (e : AgentEnv ExplanationResult) (q : Question) :
    cleanLog (explanationCritic e q).log := by
  have hl0 : isConflictLine "📝 Explanation Critic: Reviewing explanation quality..." = false := by
    decide
  have hmiss : isConflictLine
      "📝 Explanation Critic: No explanation found — flagging for creation" = false := by
    decide
  have hsucc : ∀ r : ExplanationResult,
      isConflictLine ("📝 Explanation Critic: " ++ (r.quality ++ (" (" ++ (toString r.score ++ "/10)")))) = false :=
    fun r => notConflict_append _ _ (by decide) (by decide) (by decide)
  have hwarn : ∀ s : String, isConflictLine ("⚠ Explanation Critic failed: " ++ s) = false :=
    fun s => notConflict_append _ _ (by decide) (by decide) (by decide)
  unfold explanationCritic
  by_cases hx : jsOr q.finalExplanation (jsOr q.feedback "") = ""
  · intro line hl
    simp only [hx, if_true, List.mem_cons, List.not_mem_nil, or_false] at hl
    rcases hl with h1 | h2
    · subst h1; exact hl0
    · subst h2; exact hmiss
  · simp only [hx, if_neg, if_false]
    cases h : e.call Provider.groq Tier.smart with
    | ok raw =>
      cases hd : e.decode raw with
      | ok r =>
        intro line hl
        simp only [hd, List.mem_cons, List.not_mem_nil, or_false] at hl
        rcases hl with h1 | h2
        · subst h1; exact hl0
        · subst h2; simpa [String.append_assoc] using hsucc r
      | error er =>
        intro line hl
        simp only [hd, List.mem_cons, List.not_mem_nil, or_false] at hl
        rcases hl with h1 | h2
        · subst h1; exact hl0
        · subst h2; exact hwarn er
    | error er =>
      intro line hl
      simp only [List.mem_cons, List.not_mem_nil, or_false] at hl
      rcases hl with h1 | h2
      · subst h1; exact hl0
      · subst h2; exact hwarn er

theorem memoryTrickGenerator_log_clean (e : AgentEnv MemoryResult) (q : Question) :
    cleanLog (memoryTrickGenerator e q).log := by
  have hl0 : isConflictLine "💡 Memory Trick Generator: Creating mnemonic..." = false := by
    decide
  have hsucc : ∀ r : MemoryResult,
      isConflictLine ("💡 Memory Trick: [" ++ (r.type ++ ("] " ++ r.memoryTrick))) = false :=
    fun r => notConflict_append _ _ (by decide) (by decide) (by decide)
  have hwarn : ∀ s : String,
      isConflictLine ("⚠ Memory Trick Generator failed: " ++ s) = false :=
    fun s => notConflict_append _ _ (by decide) (by decide) (by decide)
  unfold memoryTrickGenerator
  cases h : e.call Provider.groq Tier.fast with
  | ok raw =>
    cases hd : e.decode raw with
    | ok r =>
      intro line hl
      simp only [hd, List.mem_cons, List.not_mem_nil, or_false] at hl
      rcases hl with h1 | h2
      · subst h1; exact hl0
      · subst h2; simpa [String.append_assoc] using hsucc r
    | error er =>
      intro line hl
      simp only [hd, List.mem_cons, List.not_mem_nil, or_false] at hl
      rcases hl with h1 | h2
      · subst h1; exact hl0
      · subst h2; exact hwarn er
  | error er =>
    intro line hl
    simp only [List.mem_cons, List.not_mem_nil, or_false] at hl
    rcases hl with h1 | h2
    · subst h1; exact hl0
    · subst h2; exact hwarn er

theorem calculationChecker_log_clean (e : AgentEnv CalcResult) (q : Question) :
    cleanLog (calculationChecker e q).log := by
  have hl0 : isConflictLine
      "🔢 Calculation Checker: Checking if calculation steps needed..." = false := by
    decide
  have hsucc : ∀ r : CalcResult, isConflictLine (calcSuccessLine r) = false := by
    intro r
    unfold calcSuccessLine
    cases hb : r.requiresCalculation <;> simp <;> decide
  have hwarn : ∀ s : String,
      isConflictLine ("⚠ Calculation Checker failed: " ++ s) = false :=
    fun s => notConflict_append _ _ (by decide) (by decide) (by decide)
  unfold calculationChecker
  cases h : e.call Provider.groq Tier.fast with
  | ok raw =>
    cases hd : e.decode raw with
    | ok r =>
      intro line hl
      simp only [hd, List.mem_cons, List.not_mem_nil, or_false] at hl
      rcases hl with h1 | h2
      · subst h1; exact hl0
      · subst h2; exact hsucc r
    | error er =>
      intro line hl
      simp only [hd, List.mem_cons, List.not_mem_nil, or_false] at hl
      rcases hl with h1 | h2
      · subst h1; exact hl0
      · subst h2; exact hwarn er
  | error er =>
    intro line hl
    simp only [List.mem_cons, List.not_mem_nil, or_false] at hl
    rcases hl with h1 | h2
    · subst h1; exact hl0
    · subst h2; exact hwarn er

/-- C5: for every Question with manualAnswer == aiAnswer == finalAnswer and a
verifier verdict other than `uncertain`, the review's hasConflict field is
false and, unless `conflict_analyzer` is explicitly in the plan's agent set,
the Conflict Analyzer does not run and no Conflict Analyzer line appears in
the log. -/
theorem review_no_conflict_run (env : ReviewEnv) (q : Question)
    (hs : env.sysError = none)
    (h1 : q.rightOption = q.aiAnswer)
    (h2 : q.rightOption = q.finalAnswer)
    (h3 : optB (avOutOf env q) (fun r => r.verdict == "uncertain") = false) :
    (reviewQuestion env q).hasConflict = false
    ∧ ((planOf env q).agents.contains "conflict_analyzer" = false →
        conflictOutOf env q = none
        ∧ ∀ line ∈ (reviewQuestion env q).agentLog, isConflictLine line = false) := by
  have h2' : q.aiAnswer = q.finalAnswer := h1 ▸ h2
  have hcf : hasConflictOf env q = false := by
    unfold hasConflictOf
    rw [h1, h2', h3]
    simp
  refine ⟨by simp [reviewQuestion, hs, hcf], fun hnc => ?_⟩
  have hnc' : "conflict_analyzer" ∉ (planOf env q).agents := by simpa using hnc
  have hnone : conflictOutOf env q = none := by
    unfold conflictOutOf
    cases ha : avOutOf env q with
    | none => rfl
    | some avO => simp [hnc', hcf]
  refine ⟨hnone, ?_⟩
  have hAv : cleanLog (optLog (avOutOf env q)) := by
    unfold avOutOf
    split
    · exact answerVerifier_log_clean env.av q
    · intro line hl; simp [optLog] at hl
  have hDr : cleanLog (optLog (drOutOf env q)) := by
    unfold drOutOf
    split
    · exact difficultyRater_log_clean env.diff q
    · intro line hl; simp [optLog] at hl
  have hUc : cleanLog (optLog (ucOutOf env q)) := by
    unfold ucOutOf
    split
    · exact unitChecker_log_clean env.unit q
    · intro line hl; simp [optLog] at hl
  have hEx : cleanLog (optLog (explOutOf env q)) := by
    unfold explOutOf
    split
    · exact explanationCritic_log_clean env.expl q
    · intro line hl; simp [optLog] at hl
  have hMe : cleanLog (optLog (memOutOf env q)) := by
    unfold memOutOf
    split
    · exact memoryTrickGenerator_log_clean env.mem q
    · intro line hl; simp [optLog] at hl
  have hCa : cleanLog (optLog (calcOutOf env q)) := by
    unfold calcOutOf
    split
    · exact calculationChecker_log_clean env.calcE q
    · intro line hl; simp [optLog] at hl
  have hComp : isConflictLine ("✓ Complete in "
      ++ (env.elapsed ++ ("s — " ++ (toString (planOf env q).agents.length ++ " agents ran")))) = false :=
    notConflict_append _ _ (by decide) (by decide) (by decide)
  intro line hl
  simp only [reviewQuestion, hs] at hl
  simp only [agentLogOf, hnone, List.mem_append, List.mem_cons, List.not_mem_nil,
    or_false] at hl
  rcases hl with (((((((hP | hA) | hD) | hU) | hC) | hE) | hM) | hK) | hComp'
  · exact orchestrate_log_clean env.orch q line hP
  · exact hAv line hA
  · exact hDr line hD
  · exact hUc line hU
  · simp [optLog] at hC
  · exact hEx line hE
  · exact hMe line hM
  · exact hCa line hK
  · subst hComp'; simpa [String.append_assoc] using hComp

theorem review_no_conflict_run_witness :
    (reviewQuestion envC5 q0).hasConflict = false
    ∧ (conflictOutOf envC5 q0 = none
        ∧ ∀ line ∈ (reviewQuestion envC5 q0).agentLog, isConflictLine line = false) :=
  ⟨(review_no_conflict_run envC5 q0 rfl rfl rfl (by decide)).1,
   (review_no_conflict_run envC5 q0 rfl rfl rfl (by decide)).2 (by decide)⟩

-- ── C8: lemmas about the cleaning pipeline ───────────────────────────────────

theorem matchesAt_head_false {as : List Char} {ps : List (List Char)}
    {c : Char} {cs : List Char} (h : chrIn c as = false) :
    matchesAt (as :: ps) (c :: cs) = false := by
  simp [matchesAt, h]

theorem fenceJson_head_false {c : Char} (hc : c ≠ '`') (x : List Char) :
    matchesAt fenceJsonPat (c :: x) = false := by
  apply matchesAt_head_false
  simp [chrIn, beq_false_of_ne hc]

theorem fence_head_false {c : Char} (hc : c ≠ '`') (x : List Char) :
    matchesAt fencePat (c :: x) = false := by
  apply matchesAt_head_false
  simp [chrIn, beq_false_of_ne hc]

theorem thinkOpen_head_false {c : Char} (hc : c ≠ '<') (x : List Char) :
    matchesAt thinkOpenPat (c :: x) = false := by
  apply matchesAt_head_false
  simp [chrIn, beq_false_of_ne hc]

theorem thinkClose_head_false {c : Char} (hc : c ≠ '<') (x : List Char) :
    matchesAt thinkClosePat (c :: x) = false := by
  apply matchesAt_head_false
  simp [chrIn, beq_false_of_ne hc]

/-- A backtick-free segment passes through the first fence replacement
untouched; no match can start inside it or span out of it. -/
theorem stripFenceJson_append (a b : List Char) (ha : '`' ∉ a) :
    stripFenceJson (a ++ b) = a ++ stripFenceJson b := by
  induction a with
  | nil => simp
  | cons c a' ih =>
    have hc : c ≠ '`' := by
      rintro rfl
      exact ha (List.mem_cons_self _ _)
    have ha' : '`' ∉ a' := fun h => ha (List.mem_cons_of_mem _ h)
    rw [List.cons_append, stripFenceJson]
    rw [fenceJson_head_false hc (a' ++ b)]
    simp only [Bool.false_eq_true, if_false, List.cons_append]
    rw [ih ha']

theorem stripFence_append (a b : List Char) (ha : '`' ∉ a) :
    stripFence (a ++ b) = a ++ stripFence b := by
  induction a with
  | nil => simp
  | cons c a' ih =>
    have hc : c ≠ '`' := by
      rintro rfl
      exact ha (List.mem_cons_self _ _)
    have ha' : '`' ∉ a' := fun h => ha (List.mem_cons_of_mem _ h)
    rw [List.cons_append, stripFence]
    rw [fence_head_false hc (a' ++ b)]
    simp only [Bool.false_eq_true, if_false, List.cons_append]
    rw [ih ha']

theorem stripFenceJson_nil : stripFenceJson [] = [] := by
  rw [stripFenceJson]

theorem stripFence_nil : stripFence [] = [] := by
  rw [stripFence]

theorem stripThink_nil : stripThink [] = [] := by
  rw [stripThink]

theorem stripFenceJson_id (a : List Char) (ha : '`' ∉ a) : stripFenceJson a = a := by
  have := stripFenceJson_append a [] ha
  simpa [stripFenceJson_nil] using this

theorem stripFence_id (a : List Char) (ha : '`' ∉ a) : stripFence a = a := by
  have := stripFence_append a [] ha
  simpa [stripFence_nil] using this

theorem stripFenceJson_cons_ne {c : Char} (hc : c ≠ '`') (x : List Char) :
    stripFenceJson (c :: x) = c :: stripFenceJson x := by
  rw [stripFenceJson, fenceJson_head_false hc]
  simp

theorem stripFence_cons_ne {c : Char} (hc : c ≠ '`') (x : List Char) :
    stripFence (c :: x) = c :: stripFence x := by
  rw [stripFence, fence_head_false hc]
  simp

theorem stripThink_cons_ne {c : Char} (hc : c ≠ '<') (x : List Char) :
    stripThink (c :: x) = c :: stripThink x := by
  rw [stripThink, thinkOpen_head_false hc]
  simp

/-- The opening code fence (with its newline) is removed in one match. -/
theorem stripFenceJson_fence (X : List Char) :
    stripFenceJson ("```json\n".data ++ X) = stripFenceJson X := by
  show stripFenceJson ('`' :: '`' :: '`' :: 'j' :: 's' :: 'o' :: 'n' :: '\n' ::X) = stripFenceJson X
  rw [stripFenceJson]
  simp only [show matchesAt fenceJsonPat ('`' :: '`' :: '`' :: 'j' :: 's' :: 'o' :: 'n' :: '\n' ::X) = true
    from rfl, if_true]
  rw [if_pos (show (('`' :: '`' :: 'j' :: 's' :: 'o' :: 'n' :: '\n' ::X).drop 6).head? = some '\n' from rfl)]
  rfl

/-- The trailing fence survives the json-fence pass unchanged. -/
theorem stripFenceJson_tail : stripFenceJson ('\n' :: '`' :: '`' :: '`' ::[]) = '\n' :: '`' :: '`' :: '`' ::[] := by
  rw [stripFenceJson_cons_ne (by decide)]
  rw [stripFenceJson]
  simp only [show matchesAt fenceJsonPat ('`' :: '`' :: '`' ::([] : List Char)) = false from rfl,
    Bool.false_eq_true, if_false]
  rw [stripFenceJson]
  simp only [show matchesAt fenceJsonPat ('`' :: '`' ::([] : List Char)) = false from rfl,
    Bool.false_eq_true, if_false]
  rw [stripFenceJson]
  simp only [show matchesAt fenceJsonPat ('`' ::([] : List Char)) = false from rfl,
    Bool.false_eq_true, if_false]
  rw [stripFenceJson]

/-- The trailing fence is removed by the bare-fence pass. -/
theorem stripFence_tail : stripFence ('\n' :: '`' :: '`' :: '`' ::[]) = ['\n'] := by
  rw [stripFence_cons_ne (by decide)]
  rw [stripFence]
  simp only [show matchesAt fencePat ('`' :: '`' :: '`' ::([] : List Char)) = true from rfl, if_true]
  rw [if_neg (show ¬ (('`' :: '`' ::([] : List Char)).drop 2).head? = some '\n' by decide)]
  rw [show ('`' :: '`' ::([] : List Char)).drop 2 = ([] : List Char) from rfl, stripFence_nil]

theorem findClose_append (a b : List Char) (ha : '<' ∉ a) :
    findClose (a ++ b) = (findClose b).map (· + a.length) := by
  induction a with
  | nil =>
    simp only [List.nil_append, List.length_nil]
    cases findClose b <;> simp
  | cons c a' ih =>
    have hc : c ≠ '<' := by
      rintro rfl
      exact ha (List.mem_cons_self _ _)
    have ha' : '<' ∉ a' := fun h => ha (List.mem_cons_of_mem _ h)
    rw [List.cons_append, findClose, thinkClose_head_false hc]
    simp only [Bool.false_eq_true, if_false, ih ha']
    cases findClose b <;> simp [List.length_cons] <;> omega

theorem findClose_close (y : List Char) :
    findClose ("</think>".data ++ y) = some 0 := by
  show findClose ('<' :: '/' :: 't' :: 'h' :: 'i' :: 'n' :: 'k' :: '>' ::y) = some 0
  rw [findClose]
  simp only [show matchesAt thinkClosePat ('<' :: '/' :: 't' :: 'h' :: 'i' :: 'n' :: 'k' :: '>' ::y) = true
    from rfl, if_true]

/-- A whole well-formed reasoning block (content without `<`) is removed in
one lazy match. -/
theorem stripThink_block (R rest : List Char) (hR : '<' ∉ R) :
    stripThink (("<think>".data ++ R ++ "</think>".data) ++ rest) = stripThink rest := by
  have hshape : ("<think>".data ++ R ++ "</think>".data) ++ rest
      = '<' :: 't' :: 'h' :: 'i' :: 'n' :: 'k' :: '>' :: (R ++ ("</think>".data ++ rest)) := by
    simp [List.append_assoc]
  rw [hshape, stripThink]
  simp only [show matchesAt thinkOpenPat
      ('<' :: 't' :: 'h' :: 'i' :: 'n' :: 'k' :: '>' :: (R ++ ("</think>".data ++ rest))) = true from rfl,
    if_true]
  simp only [show ('t' :: 'h' :: 'i' :: 'n' :: 'k' :: '>' :: (R ++ ("</think>".data ++ rest))).drop 6
      = R ++ ("</think>".data ++ rest) from rfl]
  rw [findClose_append R _ hR, findClose_close rest]
  simp only [Option.map_some']
  have hdrop : (R ++ ("</think>".data ++ rest)).drop (0 + R.length + 8) = rest := by
    rw [Nat.zero_add]
    have : R.length + 8 = R.length + 8 := rfl
    rw [List.drop_append 8]
    rfl
  rw [hdrop]

theorem matchesAt_length (pat : List (List Char)) :
    ∀ s : List Char, matchesAt pat s = true → pat.length ≤ s.length := by
  induction pat with
  | nil => intro s _; simp
  | cons as ps ih =>
    intro s hm
    cases s with
    | nil => simp [matchesAt] at hm
    | cons c cs =>
      simp only [matchesAt, Bool.and_eq_true] at hm
      have := ih cs hm.2
      simp only [List.length_cons]
      omega

/-- Appending a newline cannot complete a match of a newline-free pattern. -/
theorem matchesAt_append_nl (pat : List (List Char))
    (hp : ∀ as ∈ pat, chrIn '\n' as = false) :
    ∀ y : List Char, matchesAt pat (y ++ ['\n']) = matchesAt pat y := by
  induction pat with
  | nil => intro y; rfl
  | cons as ps ih =>
    intro y
    cases y with
    | nil =>
      simp only [List.nil_append]
      rw [matchesAt_head_false (hp as (List.mem_cons_self _ _))]
      rfl
    | cons c cs =>
      simp only [List.cons_append, List.append_eq, matchesAt,
        ih (fun bs hbs => hp bs (List.mem_cons_of_mem _ hbs))]

theorem findClose_append_nl (y : List Char) :
    findClose (y ++ ['\n']) = findClose y := by
  induction y with
  | nil =>
    simp only [List.nil_append]
    rw [findClose]
    rw [findClose]
    rw [show matchesAt thinkClosePat ('\n' :: ([] : List Char)) = false from rfl]
    simp only [Bool.false_eq_true, if_false]
    rw [show findClose ([] : List Char) = none from by rw [findClose]]
    rfl
  | cons c cs ih =>
    rw [List.cons_append, findClose, findClose]
    rw [show matchesAt thinkClosePat (c :: (cs ++ ['\n'])) = matchesAt thinkClosePat (c :: cs) by
      simpa using matchesAt_append_nl thinkClosePat (by decide) (c :: cs)]
    cases hm : matchesAt thinkClosePat (c :: cs) with
    | true => rfl
    | false => simp [ih]

theorem findClose_bound (y : List Char) :
    ∀ d, findClose y = some d → d + 8 ≤ y.length := by
  induction y with
  | nil => intro d h; rw [findClose] at h; cases h
  | cons c cs ih =>
    intro d h
    rw [findClose] at h
    by_cases hm : matchesAt thinkClosePat (c :: cs) = true
    · rw [if_pos hm] at h
      cases h
      have hl := matchesAt_length thinkClosePat (c :: cs) hm
      have h8 : thinkClosePat.length = 8 := rfl
      rw [h8] at hl
      simp only [List.length_cons] at hl ⊢
      omega
    · rw [if_neg hm] at h
      cases hfc : findClose cs with
      | none => rw [hfc] at h; cases h
      | some d' =>
        rw [hfc] at h
        simp only [Option.map_some'] at h
        cases h
        have := ih d' hfc
        simp only [List.length_cons]
        omega

/-- Appending a trailing newline commutes with the reasoning-block pass. -/
theorem stripThink_append_nl (x : List Char) :
    stripThink (x ++ ['\n']) = stripThink x ++ ['\n'] := by
  generalize hn : x.length = n
  induction n using Nat.strong_induction_on generalizing x with
  | _ n ih =>
    cases x with
    | nil =>
      subst hn
      rw [List.nil_append, stripThink_cons_ne (by decide), stripThink_nil]
      rfl
    | cons c cs =>
      subst hn
      rw [List.cons_append, stripThink, stripThink]
      rw [show matchesAt thinkOpenPat (c :: (cs ++ ['\n'])) = matchesAt thinkOpenPat (c :: cs) by
        simpa using matchesAt_append_nl thinkOpenPat (by decide) (c :: cs)]
      cases hm : matchesAt thinkOpenPat (c :: cs) with
      | false =>
        simp only [Bool.false_eq_true, if_false, List.cons_append]
        rw [ih cs.length (by simp) cs rfl]
      | true =>
        simp only [if_true]
        have hlen : 7 ≤ (c :: cs).length := matchesAt_length thinkOpenPat (c :: cs) hm
        have hcs6 : 6 ≤ cs.length := by simpa using hlen
        have hdrop6 : (cs ++ ['\n']).drop 6 = cs.drop 6 ++ ['\n'] :=
          List.drop_append_of_le_length hcs6
        rw [hdrop6, findClose_append_nl (cs.drop 6)]
        cases hfc : findClose (cs.drop 6) with
        | none =>
          simp only []
          rw [ih cs.length (by simp) cs rfl, List.cons_append]
        | some d =>
          simp only []
          have hb : d + 8 ≤ (cs.drop 6).length := findClose_bound (cs.drop 6) d hfc
          have hdrop : (cs.drop 6 ++ ['\n']).drop (d + 8) = (cs.drop 6).drop (d + 8) ++ ['\n'] :=
            List.drop_append_of_le_length hb
          rw [hdrop]
          have hlt : ((cs.drop 6).drop (d + 8)).length < (c :: cs).length := by
            simp only [List.length_drop, List.length_cons]
            omega
          rw [ih ((cs.drop 6).drop (d + 8)).length hlt ((cs.drop 6).drop (d + 8)) rfl]

theorem trimJS_cons_nl (x : List Char) : trimJS ('\n' :: x) = trimJS x := by
  simp [trimJS, List.dropWhile_cons, wsChar]

theorem trimEnd_append_nl (y : List Char) : trimEnd (y ++ ['\n']) = trimEnd y := by
  simp [trimEnd, List.reverse_append, List.dropWhile_cons, wsChar]

theorem dropWhile_append_of_ne_nil {p : Char → Bool} (x y : List Char)
    (h : x.dropWhile p ≠ []) : (x ++ y).dropWhile p = x.dropWhile p ++ y := by
  rw [List.dropWhile_append]
  simp [List.isEmpty_iff, h]

theorem trimJS_append_nl (x : List Char) : trimJS (x ++ ['\n']) = trimJS x := by
  unfold trimJS
  by_cases hx : x.dropWhile wsChar = []
  · rw [List.dropWhile_append]
    simp only [hx, List.isEmpty_nil, if_true]
    simp [List.dropWhile_cons, wsChar]
  · rw [dropWhile_append_of_ne_nil x ['\n'] hx, trimEnd_append_nl]

/-- The heart of the round trip: cleaning the wrapped response yields exactly
the cleaned bare response, provided the structured text is backtick-free and
the reasoning text contains no backtick and no angle bracket. -/
theorem cleanResponse_wrap (reasoning t : List Char)
    (ht : '`' ∉ t) (hr1 : '`' ∉ reasoning) (hr2 : '<' ∉ reasoning) :
    cleanResponse (wrapResponse reasoning t) = cleanResponse t := by
  have hpre : '`' ∉ "<think>".data ++ reasoning ++ "</think>\n".data := by
    intro hmem
    rcases List.mem_append.mp hmem with hmem1 | hmem2
    · rcases List.mem_append.mp hmem1 with hmem3 | hmem4
      · revert hmem3; decide
      · exact hr1 hmem4
    · revert hmem2; decide
  unfold cleanResponse wrapResponse
  -- pass 1: /```json\n?/gi
  have e1 : stripFenceJson ("<think>".data ++ reasoning ++ "</think>\n```json\n".data
      ++ t ++ "\n```".data)
      = "<think>".data ++ reasoning ++ "</think>\n".data ++ t ++ ('\n' :: '`' :: '`' :: '`' ::[]) := by
    have hsplit : "<think>".data ++ reasoning ++ "</think>\n```json\n".data ++ t ++ "\n```".data
        = ("<think>".data ++ reasoning ++ "</think>\n".data)
          ++ ("```json\n".data ++ (t ++ ('\n' :: '`' :: '`' :: '`' ::[]))) := by
      simp [List.append_assoc]
    rw [hsplit, stripFenceJson_append _ _ hpre, stripFenceJson_fence,
      stripFenceJson_append t _ ht, stripFenceJson_tail]
    simp [List.append_assoc]
  rw [e1]
  -- pass 2: /```\n?/g
  have e2 : stripFence ("<think>".data ++ reasoning ++ "</think>\n".data ++ t
      ++ ('\n' :: '`' :: '`' :: '`' ::[]))
      = "<think>".data ++ reasoning ++ "</think>\n".data ++ t ++ ['\n'] := by
    have hsplit : "<think>".data ++ reasoning ++ "</think>\n".data ++ t ++ ('\n' :: '`' :: '`' :: '`' ::[])
        = (("<think>".data ++ reasoning ++ "</think>\n".data) ++ t)
          ++ ('\n' :: '`' :: '`' :: '`' ::[]) := by
      simp [List.append_assoc]
    have hpre2 : '`' ∉ ("<think>".data ++ reasoning ++ "</think>\n".data) ++ t := by
      intro hmem
      rcases List.mem_append.mp hmem with hmem1 | hmem2
      · exact hpre hmem1
      · exact ht hmem2
    rw [hsplit, stripFence_append _ _ hpre2, stripFence_tail]
  rw [e2]
  -- pass 3: /<think>[\s\S]*?<\/think>/gi
  have e3 : stripThink ("<think>".data ++ reasoning ++ "</think>\n".data ++ t ++ ['\n'])
      = '\n' :: (stripThink t ++ ['\n']) := by
    have hsplit : "<think>".data ++ reasoning ++ "</think>\n".data ++ t ++ ['\n']
        = ("<think>".data ++ reasoning ++ "</think>".data) ++ ('\n' :: (t ++ ['\n'])) := by
      simp [List.append_assoc]
    rw [hsplit, stripThink_block reasoning _ hr2, stripThink_cons_ne (by decide),
      stripThink_append_nl]
  rw [e3]
  -- the trim step absorbs the leading and trailing newline
  rw [show '\n' :: (stripThink t ++ ['\n']) = ('\n' :: stripThink t) ++ ['\n'] from rfl]
  rw [trimJS_append_nl, trimJS_cons_nl]
  rw [stripFenceJson_id t ht, stripFence_id t ht]

/-- C8: round-trip of the Structured Response Parser — wrapping a decodable
structured text in a fenced code block and prepending a well-formed embedded
reasoning block yields an input that decodes to the same record. The
structured text is backtick-free and the reasoning text contains neither a
backtick nor an angle bracket, so the wrapping markers stay well formed. -/
theorem parseJSON_roundtrip {α : Type} (decode : List Char → Option α)
    (t reasoning : List Char) (r : α)
    (ht : '`' ∉ t) (hr1 : '`' ∉ reasoning) (hr2 : '<' ∉ reasoning)
    (h : parseJSONWith decode t = some r) :
    parseJSONWith decode (wrapResponse reasoning t) = some r := by
  unfold parseJSONWith at h ⊢
  rw [cleanResponse_wrap reasoning t ht hr1 hr2]
  exact h

theorem stripThink_id (a : List Char) (ha : '<' ∉ a) : stripThink a = a := by
  induction a with
  | nil => exact stripThink_nil
  | cons c a' ih =>
    have hc : c ≠ '<' := by
      rintro rfl
      exact ha (List.mem_cons_self _ _)
    rw [stripThink_cons_ne hc, ih (fun h => ha (List.mem_cons_of_mem _ h))]

/-- Concrete structured text for the round-trip witness. -/
def tW : List Char := "\x7b\"answer\": \"A\"\x7d".data

/-- Concrete reasoning-block content for the round-trip witness. -/
def rW : List Char := "the taxpayer files singly".data

theorem parseJSON_roundtrip_witness :
    parseJSONWith some (wrapResponse rW tW) = some tW := by
  apply parseJSON_roundtrip some tW rW tW (by decide) (by decide) (by decide)
  have h1 : stripFenceJson tW = tW := stripFenceJson_id _ (by decide)
  have h2 : stripFence tW = tW := stripFence_id _ (by decide)
  have h3 : stripThink tW = tW := stripThink_id _ (by decide)
  unfold parseJSONWith cleanResponse
  rw [h1, h2, h3]
  decide
